import Mathlib

/-!
# Time-Trek: the interaction loop of `script.js`

A shallow embedding of the game script: the module-level variables and the
DOM text the script writes become one record `Game`; every function of the
script becomes a function on that record; the browser's callbacks (key-down,
key-up, click on the close button, animation frame) become the constructors
of `Event`, and a session is a list of events folded over the state.

Numbers are integers: `playerX` starts at 100 and only ever changes by
`PLAYER_SPEED`, and artifact positions come out of `parseInt`.
An object reference (`activeArtifact`, the argument of `openPopup`) is the
index of the object in the `artifacts` array, so that a write through the
reference is seen by the array, as in the script.
-/

namespace TimeTrek

/-! ## Constants (lines 12-14, 129) -/

def GAME_WIDTH : Int := 800
def WORLD_WIDTH : Int := 2400
def PLAYER_SPEED : Int := 4
def PLAYER_WIDTH : Int := 32

/-! ## Data -/

/-- One entry of `artifacts` (lines 60-67). `name` and `description` are what
the registry entry of `type` holds; `none` is the JavaScript value
`undefined`. The DOM node `el` is not modelled. -/
structure Artifact where
  x : Int
  type : String
  name : Option String
  description : Option String
  collected : Bool
deriving DecidableEq, Repr

/-- What the page holds before the script has written to it: the text of
`#message`, `#found`, `#popup-title`, `#popup-text`, whether `#popup` carries
the class `hidden`, the left offset of `#player` and the horizontal offset of
`#world`. The page is not part of the script. -/
structure Page where
  message : String
  foundDisplay : String
  popupTitle : String
  popupText : String
  popupHidden : Bool
  playerLeft : Int
  cameraX : Int
deriving DecidableEq, Repr

/-- The script's variables (lines 16-19, 53, 71) together with the DOM state
it writes. `keys` is the object `keys`: a property list in insertion order.
`cameraX` is the offset last written to `world.style.transform` (as
`translateX(-cameraX px)`), `playerLeft` the value of `player.style.left`. -/
structure Game where
  playerX : Int
  keys : List (String × Bool)
  popupOpen : Bool
  activeArtifact : Option Nat
  artifacts : List Artifact
  foundCount : Nat
  message : String
  foundDisplay : String
  popupTitle : String
  popupText : String
  popupHidden : Bool
  playerLeft : Int
  cameraX : Int
deriving DecidableEq, Repr

/-- The constant `totalArtifacts` (line 70): the array is never resized. -/
def Game.totalArtifacts (s : Game) : Nat := s.artifacts.length

/-- The browser callbacks the script registers (lines 75, 97, 103, 114).
`keydown k` and `keyup k` carry `e.key`. -/
inductive Event where
  | keydown (key : String)
  | keyup (key : String)
  | closeClick
  | frame
deriving DecidableEq, Repr

/-! ## Strings -/

/-- `String.prototype.toLowerCase` on the ASCII letters. -/
def toLowerCase (s : String) : String := String.mk (s.data.map Char.toLower)

/-- A value placed in a template literal: `undefined` prints as such. -/
def templateText : Option String → String
  | some t => t
  | none => "undefined"

/-- A value assigned to `textContent`: `undefined` gives the empty text. -/
def textContent : Option String → String
  | some t => t
  | none => ""

def msgExplore : String :=
  "Explore Mesopotamia! Use ← → or A/D to move. Press E near an object to inspect it."

def msgSee (name : Option String) : String :=
  "You see a " ++ templateText name ++ ". Press E to inspect it."

def msgAllFound : String :=
  "You found all the key Mesopotamian inventions! Press Space or Enter to close."

def msgGreat : String :=
  "Great discovery! Keep exploring to find the remaining inventions."

def msgComplete : String :=
  "Mission complete! You uncovered how Mesopotamian inventions shaped our modern world."

def foundText (found total : Nat) : String :=
  "Artifacts found: " ++ toString found ++ " / " ++ toString total

/-! ## The `keys` object -/

/-- The assignment `keys[key] = v`. -/
def setKey : List (String × Bool) → String → Bool → List (String × Bool)
  | [], key, v => [(key, v)]
  | (k, b) :: rest, key, v =>
    if k = key then (k, v) :: rest else (k, b) :: setKey rest key v

/-- The truth value of `keys[key]`; an absent property is `undefined`. -/
def getKey : List (String × Bool) → String → Bool
  | [], _ => false
  | (k, b) :: rest, key => if k = key then b else getKey rest key

/-! ## The registry and the artifact array (lines 22-68) -/

/-- What the reads `.name` and `.description` give on a value of the registry;
`none` is `undefined`. -/
structure Info where
  name : Option String
  description : Option String
deriving DecidableEq, Repr

/-- The properties written in the literal `artifactInfo` (lines 22-48). -/
def artifactInfoEntries : List (String × Info) :=
  [
    ("cuneiform",
      { name := some "Cuneiform Tablet"
        description := some
          "Cuneiform was one of the world’s first writing systems, invented in Mesopotamia. Scribes pressed wedge-shaped marks into clay tablets to record trades, laws, stories like the Epic of Gilgamesh, and more. Every time you write on paper or type on a keyboard, you're using an idea that started here!" }),
    ("plow",
      { name := some "The Plow"
        description := some
          "The plow allowed Mesopotamian farmers to dig into the soil more easily and plant more crops. This meant more food, larger cities, and more people. Modern tractors and farming machines are high-tech versions of this early tool." }),
    ("irrigation",
      { name := some "Irrigation Gate"
        description := some
          "Irrigation systems in Mesopotamia used canals and gates to control the water from the Tigris and Euphrates rivers. This turned dry land into farmland and made big civilizations possible. Modern sprinklers, dams, and canals still use the same basic idea." }),
    ("wheel",
      { name := some "The Wheel"
        description := some
          "The wheel first appeared in Mesopotamia and was used for things like pottery and carts. Today, wheels and wheel-like parts (like gears) are everywhere—cars, bikes, engines, watches, and even hard drives. Without the wheel, travel and machines would be completely different." }),
    ("math",
      { name := some "Math Tablet"
        description := some
          "Mesopotamian mathematicians developed a base-60 number system. That’s why we have 60 seconds in a minute, 60 minutes in an hour, and 360 degrees in a circle. Their work helped inspire later math like algebra, which modern science, engineering, and technology depend on." }) ]

/-- The five type ids of the registry. -/
def registryKeys : List String := artifactInfoEntries.map Prod.fst

/-- The function-valued properties, other than `constructor`, that an object
literal inherits from `Object.prototype`; the `name` of each is its own
property name. -/
def inheritedFunctions : List String :=
  ["hasOwnProperty", "isPrototypeOf", "propertyIsEnumerable", "toLocaleString", "toString",
   "valueOf", "__defineGetter__", "__defineSetter__", "__lookupGetter__", "__lookupSetter__"]

/-- The read `artifactInfo[type]`, seen through the two reads the script makes
on it; `none` is `undefined`, on which `.name` throws. A property the literal
does not define is looked up in `Object.prototype`: `constructor` is the
function `Object`, `__proto__` is `Object.prototype` itself, and neither these
nor the inherited functions have a `description`. -/
def artifactInfo (type : String) : Option Info :=
  match artifactInfoEntries.lookup type with
  | some info => some info
  | none =>
    if type = "constructor" then some { name := some "Object", description := none }
    else if type ∈ inheritedFunctions then some { name := some type, description := none }
    else if type = "__proto__" then some { name := none, description := none }
    else none

/-- An element of class `artifact` as the script reads it: `dataset.type`
(`none` when the element has no `data-type` attribute) and the value of
`parseInt(el.dataset.x, 10)` (`none` is `NaN`). -/
structure Marker where
  type : Option String
  x : Option Int
deriving DecidableEq, Repr

/-- The exception raised by `artifactInfo[type].name` when `artifactInfo[type]`
is `undefined`. -/
def typeError : String := "TypeError: artifactInfo[type] is undefined"

/-- The callback of `artifactElements.map` (lines 53-68). `x` is
`parseInt(..) || 0`. An absent `dataset.type` reads the property `undefined`,
which the registry does not have. -/
def loadArtifact (m : Marker) : Except String Artifact :=
  let x := match m.x with
    | some v => v
    | none => 0
  match m.type with
  | none => Except.error typeError
  | some type =>
    match artifactInfo type with
    | none => Except.error typeError
    | some info =>
      Except.ok
        { x := x, type := type, name := info.name, description := info.description,
          collected := false }

/-- The array `artifacts`: the callback runs on the markers in order, and the
first exception ends the script, leaving no array. -/
def loadArtifacts : List Marker → Except String (List Artifact)
  | [] => Except.ok []
  | m :: rest =>
    match loadArtifact m with
    | Except.error e => Except.error e
    | Except.ok a =>
      match loadArtifacts rest with
      | Except.error e => Except.error e
      | Except.ok arts => Except.ok (a :: arts)

/-! ## Start-up (lines 16-19, 70-71) -/

/-- The state once the declarations have run, with `arts` the array built at
lines 53-68. -/
def initGame (page : Page) (arts : List Artifact) : Game :=
  { playerX := 100
    keys := []
    popupOpen := false
    activeArtifact := none
    artifacts := arts
    foundCount := 0
    message := page.message
    foundDisplay := page.foundDisplay
    popupTitle := page.popupTitle
    popupText := page.popupText
    popupHidden := page.popupHidden
    playerLeft := page.playerLeft
    cameraX := page.cameraX }

/-! ## Movement (lines 117-146) -/

def handleMovement (s : Game) : Game :=
  let movingLeft := getKey s.keys "arrowleft" || getKey s.keys "a"
  let movingRight := getKey s.keys "arrowright" || getKey s.keys "d"
  let x1 := if movingLeft then s.playerX - PLAYER_SPEED else s.playerX
  let x2 := if movingRight then x1 + PLAYER_SPEED else x1
  let x3 := if x2 < 0 then 0 else x2
  let x4 := if x3 > WORLD_WIDTH - PLAYER_WIDTH then WORLD_WIDTH - PLAYER_WIDTH else x3
  let c0 := x4 - GAME_WIDTH / 2
  let c1 := if c0 < 0 then 0 else c0
  let c2 := if c1 > WORLD_WIDTH - GAME_WIDTH then WORLD_WIDTH - GAME_WIDTH else c1
  { s with playerX := x4, playerLeft := x4, cameraX := c2 }

/-! ## Proximity (lines 148-171) -/

/-- The value `Math.abs(playerX - a.x)`. -/
def distance (playerX : Int) (a : Artifact) : Nat := (playerX - a.x).natAbs

/-- The pair `(closest, minDistance)` of `checkArtifacts`; `closest` is kept
with its index in the array. -/
abbrev Best := Option (Nat × Artifact) × Nat

/-- The body of the `forEach` callback (lines 153-158) for the element `a` at
index `i`. -/
def scanStep (playerX : Int) (acc : Best) (i : Nat) (a : Artifact) : Best :=
  if a.collected then acc
  else if distance playerX a < acc.2 then (some (i, a), distance playerX a)
  else acc

/-- The loop `artifacts.forEach` from index `i` on. -/
def scanFrom (playerX : Int) : Nat → List Artifact → Best → Best
  | _, [], acc => acc
  | i, a :: rest, acc => scanFrom playerX (i + 1) rest (scanStep playerX acc i a)

/-- The value of `closest` after the loop (lines 149-159). -/
def closestArtifact (playerX : Int) (arts : List Artifact) : Option (Nat × Artifact) :=
  (scanFrom playerX 0 arts (none, 60)).1

def checkArtifacts (s : Game) : Game :=
  match closestArtifact s.playerX s.artifacts with
  | some (i, a) => { s with activeArtifact := some i, message := msgSee a.name }
  | none =>
    { s with
      activeArtifact := none
      message := if !s.popupOpen then msgExplore else s.message }

/-! ## Popup (lines 175-208) -/

/-- The call `openPopup(artifact)` with `artifact` the object at index `i`; an
index outside the array refers to no object and nothing happens. -/
def openPopup (s : Game) (i : Nat) : Game :=
  match s.artifacts[i]? with
  | none => s
  | some a =>
    let s1 := { s with
      popupTitle := textContent a.name
      popupText := textContent a.description
      popupHidden := false
      popupOpen := true }
    if !a.collected then
      let found := s.foundCount + 1
      { s1 with
        artifacts := s.artifacts.set i { a with collected := true }
        foundCount := found
        foundDisplay := foundText found s.totalArtifacts
        message := if found = s.totalArtifacts then msgAllFound else msgGreat }
    else s1

def closePopup (s : Game) : Game :=
  { s with
    popupHidden := true
    popupOpen := false
    message := if s.foundCount = s.totalArtifacts then msgComplete else msgExplore }

/-! ## Input handlers (lines 75-105) and the game loop (lines 109-115) -/

/-- The key-down listener; `eKey` is `e.key`. -/
def keydown (s : Game) (eKey : String) : Game :=
  let key := toLowerCase eKey
  if s.popupOpen then
    if key = " " ∨ key = "enter" ∨ key = "escape" then closePopup s else s
  else
    let s1 := { s with keys := setKey s.keys key true }
    if key = "e" then
      match s1.activeArtifact with
      | none => s1
      | some i =>
        match s1.artifacts[i]? with
        | none => s1
        | some a => if !a.collected then openPopup s1 i else s1
    else s1

/-- The key-up listener. -/
def keyup (s : Game) (eKey : String) : Game :=
  { s with keys := setKey s.keys (toLowerCase eKey) false }

/-- One run of `update`; the next one is the next `Event.frame`. -/
def update (s : Game) : Game :=
  checkArtifacts (if !s.popupOpen then handleMovement s else s)

/-- The state after one callback. -/
def step (s : Game) : Event → Game
  | Event.keydown k => keydown s k
  | Event.keyup k => keyup s k
  | Event.closeClick => closePopup s
  | Event.frame => update s

/-- The state after a sequence of callbacks. -/
def run (s : Game) (evs : List Event) : Game := evs.foldl step s

/-- The state when the script has run to its end: line 211 calls `update`
once. -/
def start (page : Page) (arts : List Artifact) : Game := update (initGame page arts)

/-- The whole script on a page with the markers `ms`: an exception while the
array is built ends it before any listener is registered. -/
def boot (page : Page) (ms : List Marker) : Except String Game :=
  match loadArtifacts ms with
  | Except.error e => Except.error e
  | Except.ok arts => Except.ok (start page arts)

/-! ## Specification-side definitions -/

/-- The clamp of the specification: `v` limited to the interval `[lo, hi]`. -/
def clamp (v lo hi : Int) : Int := max lo (min v hi)

/-- The bound of the specification on the player's position. -/
def InWorld (x : Int) : Prop := 0 ≤ x ∧ x ≤ WORLD_WIDTH - PLAYER_WIDTH

instance (x : Int) : Decidable (InWorld x) := by unfold InWorld; infer_instance

/-- The number of artifacts whose `collected` flag is set. -/
def collectedCount (arts : List Artifact) : Nat := arts.countP (fun a => a.collected)

/-! ## Invariants used in the proofs -/

/-- The counter agrees with the flags. -/
def CounterOk (s : Game) : Prop := s.foundCount = collectedCount s.artifacts

/-- What the pair `(closest, minDistance)` records once the elements `seen` of
the array `full` have been visited. -/
def ScanInv (playerX : Int) (full seen : List Artifact) (acc : Best) : Prop :=
  match acc.1 with
  | none => acc.2 = 60 ∧ ∀ b ∈ seen, b.collected = false → 60 ≤ distance playerX b
  | some (j, a) =>
    full[j]? = some a ∧ a.collected = false ∧ distance playerX a = acc.2 ∧ acc.2 < 60 ∧
      ∀ b ∈ seen, b.collected = false → acc.2 ≤ distance playerX b

/-! ## Sample data for the worked instances -/

/-- A page as the script may find it. -/
def samplePage : Page :=
  { message := ""
    foundDisplay := "Artifacts found: 0 / 0"
    popupTitle := ""
    popupText := ""
    popupHidden := true
    playerLeft := 0
    cameraX := 0 }

/-- An uncollected artifact of type `cuneiform` placed at `x`; the description
is shortened. -/
def tabletAt (x : Int) : Artifact :=
  { x := x, type := "cuneiform", name := some "Cuneiform Tablet",
    description := some "One of the first writing systems.", collected := false }

/-- An uncollected artifact of type `plow` placed at `x`; the description is
shortened. -/
def plowAt (x : Int) : Artifact :=
  { x := x, type := "plow", name := some "The Plow",
    description := some "It let farmers plant more crops.", collected := false }

/-- An uncollected artifact of type `wheel` placed at `x`; the description is
shortened. -/
def wheelAt (x : Int) : Artifact :=
  { x := x, type := "wheel", name := some "The Wheel",
    description := some "Used for pottery and carts.", collected := false }

/-- Every uncollected artifact listed before `closest` is strictly farther
from the player than `closest`. -/
def ScanFirst (playerX : Int) (full : List Artifact) (acc : Best) : Prop :=
  ∀ i a, acc.1 = some (i, a) → ∀ j b, j < i → full[j]? = some b → b.collected = false →
    distance playerX a < distance playerX b

/-- Every artifact has been collected. -/
def AllCollected (s : Game) : Prop := ∀ a ∈ s.artifacts, a.collected = true

/-- The active artifact, when there is one, is an artifact of the array at a
distance below 60 from the player. -/
def ActiveInRange (s : Game) : Prop :=
  ∀ i, s.activeArtifact = some i →
    ∃ a, s.artifacts[i]? = some a ∧ distance s.playerX a < 60

/-- A state the game can be in between two callbacks: the state at the end of
the script followed by any sequence of callbacks. -/
def Reachable (s : Game) : Prop :=
  ∃ (page : Page) (arts : List Artifact) (evs : List Event), s = run (start page arts) evs

/-- The read `artifactInfo[type]` of the marker `m` is `undefined`: the marker
has no type id, or its type id is no property name of the registry object. -/
def Marker.unregistered (m : Marker) : Prop :=
  m.type = none ∨ ∃ t, m.type = some t ∧ artifactInfo t = none

/-- The artifact the specification expects for the marker `m`: the marker's
type id and coordinate with the name and the description the registry gives
for that type id, not collected. -/
def Marker.builds (m : Marker) (a : Artifact) : Prop :=
  ∃ t info, m.type = some t ∧ artifactInfoEntries.lookup t = some info ∧
    a = { x := (match m.x with
          | some v => v
          | none => 0)
          type := t, name := info.name, description := info.description, collected := false }

/-! ## Field lemmas: what each function leaves alone -/

theorem checkArtifacts_playerX (s : Game) : (checkArtifacts s).playerX = s.playerX := by
  unfold checkArtifacts; split <;> rfl

theorem checkArtifacts_popupOpen (s : Game) : (checkArtifacts s).popupOpen = s.popupOpen := by
  unfold checkArtifacts; split <;> rfl

theorem checkArtifacts_artifacts (s : Game) : (checkArtifacts s).artifacts = s.artifacts := by
  unfold checkArtifacts; split <;> rfl

theorem checkArtifacts_foundCount (s : Game) : (checkArtifacts s).foundCount = s.foundCount := by
  unfold checkArtifacts; split <;> rfl

theorem openPopup_playerX (s : Game) (i : Nat) : (openPopup s i).playerX = s.playerX := by
  unfold openPopup; split
  · rfl
  · split <;> rfl

theorem closePopup_playerX (s : Game) : (closePopup s).playerX = s.playerX := rfl

theorem keyup_playerX (s : Game) (k : String) : (keyup s k).playerX = s.playerX := rfl

theorem keydown_playerX (s : Game) (k : String) : (keydown s k).playerX = s.playerX := by
  unfold keydown
  simp only []
  repeat' split
  all_goals first | rfl | exact closePopup_playerX _ | exact openPopup_playerX _ _

theorem handleMovement_inWorld (s : Game) : InWorld (handleMovement s).playerX := by
  simp only [handleMovement, InWorld, WORLD_WIDTH, PLAYER_WIDTH]
  constructor <;> repeat' split
  all_goals omega

theorem update_playerX_of_open (s : Game) (h : s.popupOpen = true) :
    (update s).playerX = s.playerX := by
  simp [update, h, checkArtifacts_playerX]

theorem update_playerX_of_closed (s : Game) (h : s.popupOpen = false) :
    (update s).playerX = (handleMovement s).playerX := by
  simp [update, h, checkArtifacts_playerX]

theorem update_inWorld (s : Game) (h : InWorld s.playerX) : InWorld (update s).playerX := by
  cases hp : s.popupOpen
  · rw [update_playerX_of_closed s hp]; exact handleMovement_inWorld s
  · rw [update_playerX_of_open s hp]; exact h

theorem step_inWorld (s : Game) (e : Event) (h : InWorld s.playerX) :
    InWorld (step s e).playerX := by
  cases e with
  | keydown k => simpa [step, keydown_playerX] using h
  | keyup k => simpa [step, keyup_playerX] using h
  | closeClick => simpa [step, closePopup_playerX] using h
  | frame => exact update_inWorld s h

theorem run_nil (s : Game) : run s [] = s := rfl

theorem run_cons (s : Game) (e : Event) (evs : List Event) :
    run s (e :: evs) = run (step s e) evs := rfl

theorem run_append (s : Game) (evs evs' : List Event) :
    run s (evs ++ evs') = run (run s evs) evs' := by
  simp [run, List.foldl_append]

theorem run_inWorld (evs : List Event) :
    ∀ s : Game, InWorld s.playerX → InWorld (run s evs).playerX := by
  induction evs with
  | nil => intro s h; exact h
  | cons e evs ih => intro s h; exact ih (step s e) (step_inWorld s e h)

/-! ## The scan of `checkArtifacts` -/

theorem scanStep_inv (playerX : Int) (full seen : List Artifact) (acc : Best) (a : Artifact)
    (ha : full[seen.length]? = some a) (h : ScanInv playerX full seen acc) :
    ScanInv playerX full (seen ++ [a]) (scanStep playerX acc seen.length a) := by
  obtain ⟨c, m⟩ := acc
  unfold scanStep
  cases hc : a.collected
  · by_cases hd : distance playerX a < m
    · simp only [hd, if_true, Bool.false_eq_true, if_false]
      cases c with
      | none =>
        simp only [ScanInv] at h ⊢
        refine ⟨ha, hc, trivial, by omega, ?_⟩
        intro b hb hbc
        rcases List.mem_append.1 hb with hb | hb
        · have := h.2 b hb hbc; omega
        · simp at hb; subst hb; exact le_refl _
      | some ja =>
        obtain ⟨j, a'⟩ := ja
        simp only [ScanInv] at h ⊢
        refine ⟨ha, hc, trivial, by omega, ?_⟩
        intro b hb hbc
        rcases List.mem_append.1 hb with hb | hb
        · have := h.2.2.2.2 b hb hbc; omega
        · simp at hb; subst hb; exact le_refl _
    · simp only [hd, if_false, Bool.false_eq_true]
      cases c with
      | none =>
        simp only [ScanInv] at h ⊢
        refine ⟨h.1, ?_⟩
        intro b hb hbc
        rcases List.mem_append.1 hb with hb | hb
        · exact h.2 b hb hbc
        · simp at hb; subst hb; have := h.1; omega
      | some ja =>
        obtain ⟨j, a'⟩ := ja
        simp only [ScanInv] at h ⊢
        refine ⟨h.1, h.2.1, h.2.2.1, h.2.2.2.1, ?_⟩
        intro b hb hbc
        rcases List.mem_append.1 hb with hb | hb
        · exact h.2.2.2.2 b hb hbc
        · simp at hb; subst hb; omega
  · simp only [if_true]
    cases c with
    | none =>
      simp only [ScanInv] at h ⊢
      refine ⟨h.1, ?_⟩
      intro b hb hbc
      rcases List.mem_append.1 hb with hb | hb
      · exact h.2 b hb hbc
      · simp at hb; subst hb; rw [hc] at hbc; cases hbc
    | some ja =>
      obtain ⟨j, a'⟩ := ja
      simp only [ScanInv] at h ⊢
      refine ⟨h.1, h.2.1, h.2.2.1, h.2.2.2.1, ?_⟩
      intro b hb hbc
      rcases List.mem_append.1 hb with hb | hb
      · exact h.2.2.2.2 b hb hbc
      · simp at hb; subst hb; rw [hc] at hbc; cases hbc

theorem scanFrom_inv (playerX : Int) (full : List Artifact) :
    ∀ (rest seen : List Artifact) (acc : Best), full = seen ++ rest →
      ScanInv playerX full seen acc →
      ScanInv playerX full full (scanFrom playerX seen.length rest acc) := by
  intro rest
  induction rest with
  | nil =>
    intro seen acc hfull h
    simp only [List.append_nil] at hfull
    subst hfull
    exact h
  | cons a rest ih =>
    intro seen acc hfull h
    have ha : full[seen.length]? = some a := by
      rw [hfull, List.getElem?_append_right (le_refl _)]; simp
    have h1 := scanStep_inv playerX full seen acc a ha h
    have h2 := ih (seen ++ [a]) (scanStep playerX acc seen.length a) (by simp [hfull]) h1
    simpa [scanFrom] using h2

theorem closestArtifact_inv (playerX : Int) (arts : List Artifact) :
    ScanInv playerX arts arts (scanFrom playerX 0 arts (none, 60)) := by
  have h := scanFrom_inv playerX arts arts [] (none, 60) (by simp) (by simp [ScanInv])
  simpa using h

theorem closestArtifact_some (playerX : Int) (arts : List Artifact) (i : Nat) (a : Artifact)
    (h : closestArtifact playerX arts = some (i, a)) :
    arts[i]? = some a ∧ a.collected = false ∧ distance playerX a < 60 ∧
      ∀ b ∈ arts, b.collected = false → distance playerX a ≤ distance playerX b := by
  have hinv := closestArtifact_inv playerX arts
  unfold closestArtifact at h
  unfold ScanInv at hinv
  rw [h] at hinv
  simp only at hinv
  obtain ⟨h1, h2, h3, h4, h5⟩ := hinv
  refine ⟨h1, h2, by omega, ?_⟩
  intro b hb hbc
  have := h5 b hb hbc
  omega

theorem closestArtifact_none (playerX : Int) (arts : List Artifact) :
    closestArtifact playerX arts = none ↔
      ∀ b ∈ arts, b.collected = false → ¬ distance playerX b < 60 := by
  constructor
  · intro h b hb hbc
    have hinv := closestArtifact_inv playerX arts
    unfold closestArtifact at h
    unfold ScanInv at hinv
    rw [h] at hinv
    simp only at hinv
    have := hinv.2 b hb hbc
    omega
  · intro h
    cases hc : closestArtifact playerX arts with
    | none => rfl
    | some ia =>
      obtain ⟨i, a⟩ := ia
      obtain ⟨h1, h2, h3, _⟩ := closestArtifact_some playerX arts i a hc
      exact absurd h3 (h a (List.mem_iff_getElem?.2 ⟨i, h1⟩) h2)

theorem checkArtifacts_activeArtifact (s : Game) :
    (checkArtifacts s).activeArtifact =
      (closestArtifact s.playerX s.artifacts).map Prod.fst := by
  unfold checkArtifacts
  split
  · next i a h => simp [h]
  · next h => simp [h]

/-! ## The key-down listener with the popup closed -/

theorem keydown_interact_closed (s : Game) (k : String) (hk : toLowerCase k = "e")
    (hp : s.popupOpen = false) :
    keydown s k =
      match s.activeArtifact with
      | none => { s with keys := setKey s.keys "e" true }
      | some i =>
        match s.artifacts[i]? with
        | none => { s with keys := setKey s.keys "e" true }
        | some a =>
          if !a.collected then openPopup { s with keys := setKey s.keys "e" true } i
          else { s with keys := setKey s.keys "e" true } := by
  simp only [keydown, hk, hp, Bool.false_eq_true, if_false, if_true]

/-! ## The found counter -/

theorem collectedCount_set (arts : List Artifact) :
    ∀ (i : Nat) (a : Artifact), arts[i]? = some a → a.collected = false →
      collectedCount (arts.set i { a with collected := true }) = collectedCount arts + 1 := by
  induction arts with
  | nil => intro i a h; simp at h
  | cons b rest ih =>
    intro i a h hc
    cases i with
    | zero =>
      simp at h
      subst h
      simp [collectedCount, List.countP_cons, hc]
    | succ n =>
      simp at h
      have := ih n a h hc
      simp only [collectedCount] at this
      simp only [collectedCount, List.set_cons_succ, List.countP_cons, this]
      omega

theorem collectedCount_le_length (arts : List Artifact) :
    collectedCount arts ≤ arts.length := List.countP_le_length _

theorem collectedCount_of_uncollected (arts : List Artifact)
    (h : ∀ a ∈ arts, a.collected = false) : collectedCount arts = 0 := by
  simp only [collectedCount, List.countP_eq_zero]
  intro a ha
  simp [h a ha]

theorem openPopup_counterOk (s : Game) (i : Nat) (h : CounterOk s) :
    CounterOk (openPopup s i) := by
  unfold openPopup
  cases ha : s.artifacts[i]? with
  | none => simpa using h
  | some a =>
    cases hc : a.collected
    · simp only [CounterOk, hc, Bool.not_false, if_true]
      rw [collectedCount_set s.artifacts i a ha hc, h]
    · simpa [CounterOk, hc] using h

theorem openPopup_foundCount_le (s : Game) (i : Nat) :
    s.foundCount ≤ (openPopup s i).foundCount := by
  unfold openPopup
  split
  · exact le_refl _
  · split
    · exact Nat.le_succ _
    · exact le_refl _

theorem keydown_cases (s : Game) (k : String) :
    keydown s k = closePopup s ∨ keydown s k = s ∨
    keydown s k = { s with keys := setKey s.keys (toLowerCase k) true } ∨
    ∃ i, keydown s k = openPopup { s with keys := setKey s.keys (toLowerCase k) true } i := by
  unfold keydown
  simp only []
  repeat' split
  all_goals first
    | exact Or.inl rfl
    | exact Or.inr (Or.inl rfl)
    | exact Or.inr (Or.inr (Or.inl rfl))
    | exact Or.inr (Or.inr (Or.inr ⟨_, rfl⟩))

theorem keydown_counterOk (s : Game) (k : String) (h : CounterOk s) :
    CounterOk (keydown s k) := by
  rcases keydown_cases s k with hk | hk | hk | ⟨i, hk⟩ <;> rw [hk]
  · exact h
  · exact h
  · exact h
  · exact openPopup_counterOk _ i h

theorem keydown_foundCount_le (s : Game) (k : String) :
    s.foundCount ≤ (keydown s k).foundCount := by
  rcases keydown_cases s k with hk | hk | hk | ⟨i, hk⟩
  · simp only [hk, closePopup, le_refl]
  · simp only [hk, le_refl]
  · simp only [hk, le_refl]
  · simp only [hk]
    exact openPopup_foundCount_le { s with keys := setKey s.keys (toLowerCase k) true } i

theorem update_artifacts (s : Game) : (update s).artifacts = s.artifacts := by
  unfold update
  rw [checkArtifacts_artifacts]
  split <;> rfl

theorem update_foundCount (s : Game) : (update s).foundCount = s.foundCount := by
  unfold update
  rw [checkArtifacts_foundCount]
  split <;> rfl

theorem step_counterOk (s : Game) (e : Event) (h : CounterOk s) : CounterOk (step s e) := by
  cases e with
  | keydown k => exact keydown_counterOk s k h
  | keyup k => exact h
  | closeClick => exact h
  | frame =>
    simp only [step, CounterOk, update_artifacts, update_foundCount]
    exact h

theorem step_foundCount_le (s : Game) (e : Event) : s.foundCount ≤ (step s e).foundCount := by
  cases e with
  | keydown k => exact keydown_foundCount_le s k
  | keyup k => exact le_refl _
  | closeClick => exact le_refl _
  | frame => simp [step, update_foundCount]

theorem run_counterOk (evs : List Event) :
    ∀ s : Game, CounterOk s → CounterOk (run s evs) := by
  induction evs with
  | nil => intro s h; exact h
  | cons e evs ih => intro s h; exact ih (step s e) (step_counterOk s e h)

/-! ## The camera -/

theorem handleMovement_cameraX (s : Game) :
    (handleMovement s).cameraX =
      if (if (handleMovement s).playerX - GAME_WIDTH / 2 < 0 then 0
          else (handleMovement s).playerX - GAME_WIDTH / 2) > WORLD_WIDTH - GAME_WIDTH
      then WORLD_WIDTH - GAME_WIDTH
      else (if (handleMovement s).playerX - GAME_WIDTH / 2 < 0 then 0
          else (handleMovement s).playerX - GAME_WIDTH / 2) := rfl

/-! ## The key-down listener with the popup open -/

theorem keydown_open_close (s : Game) (k : String) (hp : s.popupOpen = true)
    (hk : toLowerCase k = " " ∨ toLowerCase k = "enter" ∨ toLowerCase k = "escape") :
    keydown s k = closePopup s := by
  simp only [keydown, hp, hk, if_true]

theorem keydown_open_other (s : Game) (k : String) (hp : s.popupOpen = true)
    (hk : ¬ (toLowerCase k = " " ∨ toLowerCase k = "enter" ∨ toLowerCase k = "escape")) :
    keydown s k = s := by
  simp only [keydown, hp, hk, if_true, if_false]

/-! ## Reads of the `keys` object after a write -/

theorem getKey_setKey_same (keys : List (String × Bool)) (key : String) (v : Bool) :
    getKey (setKey keys key v) key = v := by
  induction keys with
  | nil => simp [setKey, getKey]
  | cons kb rest ih =>
    obtain ⟨k, b⟩ := kb
    by_cases h : k = key
    · simp [setKey, getKey, h]
    · simp [setKey, getKey, h, ih]

theorem openPopup_keys (s : Game) (i : Nat) : (openPopup s i).keys = s.keys := by
  unfold openPopup; split
  · rfl
  · split <;> rfl

theorem keydown_closed_records (s : Game) (k : String) (hp : s.popupOpen = false) :
    getKey (keydown s k).keys (toLowerCase k) = true := by
  have hset := getKey_setKey_same s.keys (toLowerCase k) true
  simp only [keydown, hp, Bool.false_eq_true, if_false]
  repeat' split
  all_goals first | exact hset | (rw [openPopup_keys]; exact hset)

/-! ## The scan keeps the first of several nearest artifacts -/

theorem scanInv_lower (playerX : Int) (full seen : List Artifact) (acc : Best)
    (h : ScanInv playerX full seen acc) :
    ∀ b ∈ seen, b.collected = false → acc.2 ≤ distance playerX b := by
  obtain ⟨c, m⟩ := acc
  cases c with
  | none =>
    simp only [ScanInv] at h
    intro b hb hbc
    have := h.2 b hb hbc
    have := h.1
    omega
  | some ja =>
    obtain ⟨j, a⟩ := ja
    simp only [ScanInv] at h
    exact h.2.2.2.2

theorem scanStep_first (playerX : Int) (full seen rest : List Artifact) (acc : Best)
    (a : Artifact) (hfull : full = seen ++ a :: rest)
    (hinv : ScanInv playerX full seen acc) (h : ScanFirst playerX full acc) :
    ScanFirst playerX full (scanStep playerX acc seen.length a) := by
  unfold scanStep
  split
  · exact h
  · split
    · next hlt =>
      intro i a' heq j b hj hb hbc
      simp only [Option.some.injEq, Prod.mk.injEq] at heq
      obtain ⟨hi, ha'⟩ := heq
      subst hi ha'
      have hmem : b ∈ seen := by
        rw [hfull, List.getElem?_append_left hj] at hb
        exact List.mem_iff_getElem?.2 ⟨j, hb⟩
      have := scanInv_lower playerX full seen acc hinv b hmem hbc
      omega
    · exact h

theorem scanFrom_first (playerX : Int) (full : List Artifact) :
    ∀ (rest seen : List Artifact) (acc : Best), full = seen ++ rest →
      ScanInv playerX full seen acc → ScanFirst playerX full acc →
      ScanFirst playerX full (scanFrom playerX seen.length rest acc) := by
  intro rest
  induction rest with
  | nil => intro seen acc _ _ h; exact h
  | cons a rest ih =>
    intro seen acc hfull hinv h
    have ha : full[seen.length]? = some a := by
      rw [hfull, List.getElem?_append_right (le_refl _)]; simp
    have h1 := scanStep_inv playerX full seen acc a ha hinv
    have h2 := scanStep_first playerX full seen rest acc a hfull hinv h
    have h3 := ih (seen ++ [a]) (scanStep playerX acc seen.length a) (by simp [hfull]) h1 h2
    simpa [scanFrom] using h3

theorem closestArtifact_first (playerX : Int) (arts : List Artifact) (i : Nat) (a : Artifact)
    (h : closestArtifact playerX arts = some (i, a)) :
    ∀ j b, j < i → arts[j]? = some b → b.collected = false →
      distance playerX a < distance playerX b := by
  have hf := scanFrom_first playerX arts arts [] (none, 60) (by simp) (by simp [ScanInv])
    (by intro i a h; simp at h)
  simp only [List.length_nil] at hf
  exact hf i a h

/-! ## The active artifact and the popup flag under each event -/

theorem keydown_open_activeArtifact (s : Game) (k : String) (hp : s.popupOpen = true) :
    (keydown s k).activeArtifact = s.activeArtifact := by
  by_cases hk : toLowerCase k = " " ∨ toLowerCase k = "enter" ∨ toLowerCase k = "escape"
  · rw [keydown_open_close s k hp hk]; rfl
  · rw [keydown_open_other s k hp hk]

theorem update_open (s : Game) (hp : s.popupOpen = true) : update s = checkArtifacts s := by
  simp [update, hp]

theorem update_popupOpen (s : Game) : (update s).popupOpen = s.popupOpen := by
  unfold update
  rw [checkArtifacts_popupOpen]
  split <;> rfl

theorem allCollected_of_counter (s : Game) (hc : CounterOk s)
    (hall : s.foundCount = s.totalArtifacts) : AllCollected s := by
  unfold CounterOk collectedCount at hc
  unfold Game.totalArtifacts at hall
  rw [hc] at hall
  exact List.countP_eq_length.1 hall

theorem keydown_done (s : Game) (k : String) (hp : s.popupOpen = false)
    (hall : AllCollected s) :
    (keydown s k).popupOpen = false ∧ (keydown s k).artifacts = s.artifacts := by
  simp only [keydown, hp, Bool.false_eq_true, if_false]
  split
  · split
    · exact ⟨rfl, rfl⟩
    · next i hact =>
      split
      · exact ⟨rfl, rfl⟩
      · next a ha =>
        have hmem : a ∈ s.artifacts := List.mem_iff_getElem?.2 ⟨i, ha⟩
        simp [hall a hmem]
  · exact ⟨rfl, rfl⟩

theorem step_done (s : Game) (e : Event) (hp : s.popupOpen = false) (hall : AllCollected s) :
    (step s e).popupOpen = false ∧ (step s e).artifacts = s.artifacts := by
  cases e with
  | keydown k => exact keydown_done s k hp hall
  | keyup k => exact ⟨hp, rfl⟩
  | closeClick => exact ⟨rfl, rfl⟩
  | frame => exact ⟨by simp [step, update_popupOpen, hp], update_artifacts s⟩

theorem run_done (evs : List Event) :
    ∀ s : Game, s.popupOpen = false → AllCollected s →
      (run s evs).popupOpen = false ∧ (run s evs).artifacts = s.artifacts := by
  induction evs with
  | nil => intro s hp _; exact ⟨hp, rfl⟩
  | cons e evs ih =>
    intro s hp hall
    obtain ⟨h1, h2⟩ := step_done s e hp hall
    have hall' : AllCollected (step s e) := by
      unfold AllCollected; rw [h2]; exact hall
    obtain ⟨h3, h4⟩ := ih (step s e) h1 hall'
    exact ⟨h3, h4.trans h2⟩

/-! ## The active artifact is in range -/

theorem checkArtifacts_activeInRange (s : Game) : ActiveInRange (checkArtifacts s) := by
  intro i hi
  rw [checkArtifacts_activeArtifact] at hi
  rw [checkArtifacts_artifacts, checkArtifacts_playerX]
  cases hc : closestArtifact s.playerX s.artifacts with
  | none => simp [hc] at hi
  | some ja =>
    obtain ⟨j, a⟩ := ja
    simp [hc] at hi
    subst hi
    obtain ⟨h1, _, h3, _⟩ := closestArtifact_some s.playerX s.artifacts j a hc
    exact ⟨a, h1, h3⟩

theorem update_activeInRange (s : Game) : ActiveInRange (update s) :=
  checkArtifacts_activeInRange _

theorem openPopup_activeArtifact (s : Game) (i : Nat) :
    (openPopup s i).activeArtifact = s.activeArtifact := by
  unfold openPopup; split
  · rfl
  · split <;> rfl

theorem openPopup_getElem (s : Game) (i j : Nat) (a : Artifact)
    (h : s.artifacts[j]? = some a) :
    ∃ b, (openPopup s i).artifacts[j]? = some b ∧ b.x = a.x := by
  unfold openPopup
  cases hi : s.artifacts[i]? with
  | none => exact ⟨a, h, rfl⟩
  | some c =>
    cases hc : c.collected
    · by_cases hij : i = j
      · subst hij
        have hlt : i < s.artifacts.length := (List.getElem?_eq_some.1 h).1
        rw [h] at hi
        simp only [Option.some.injEq] at hi
        subst hi
        exact ⟨{ a with collected := true }, by simp [hc, List.getElem?_set, hlt], rfl⟩
      · exact ⟨a, by simp [hc, List.getElem?_set, hij, h], rfl⟩
    · exact ⟨a, by simp [hc, h], rfl⟩

theorem openPopup_activeInRange (s : Game) (i : Nat) (h : ActiveInRange s) :
    ActiveInRange (openPopup s i) := by
  intro j hj
  rw [openPopup_activeArtifact] at hj
  obtain ⟨a, ha, hd⟩ := h j hj
  obtain ⟨b, hb, hx⟩ := openPopup_getElem s i j a ha
  refine ⟨b, hb, ?_⟩
  rw [openPopup_playerX]
  simpa [distance, hx] using hd

theorem keydown_activeInRange (s : Game) (k : String) (h : ActiveInRange s) :
    ActiveInRange (keydown s k) := by
  rcases keydown_cases s k with hk | hk | hk | ⟨i, hk⟩ <;> rw [hk]
  · exact h
  · exact h
  · exact h
  · exact openPopup_activeInRange _ i h

theorem step_activeInRange (s : Game) (e : Event) (h : ActiveInRange s) :
    ActiveInRange (step s e) := by
  cases e with
  | keydown k => exact keydown_activeInRange s k h
  | keyup k => exact h
  | closeClick => exact h
  | frame => exact update_activeInRange s

theorem run_activeInRange (evs : List Event) :
    ∀ s : Game, ActiveInRange s → ActiveInRange (run s evs) := by
  induction evs with
  | nil => intro s h; exact h
  | cons e evs ih => intro s h; exact ih (step s e) (step_activeInRange s e h)

theorem reachable_activeInRange (s : Game) (h : Reachable s) : ActiveInRange s := by
  obtain ⟨page, arts, evs, rfl⟩ := h
  exact run_activeInRange evs _ (update_activeInRange _)

theorem keydown_opens (s : Game) (k : String) (hp : s.popupOpen = false)
    (hopen : (keydown s k).popupOpen = true) :
    ∃ i a, s.activeArtifact = some i ∧ s.artifacts[i]? = some a ∧ a.collected = false ∧
      keydown s k = openPopup { s with keys := setKey s.keys (toLowerCase k) true } i := by
  revert hopen
  simp only [keydown, hp, Bool.false_eq_true, if_false]
  split
  · split
    · intro hopen; simp [hp] at hopen
    · next i hact =>
      split
      · intro hopen; simp [hp] at hopen
      · next a ha =>
        cases hc : a.collected
        · intro _
          exact ⟨i, a, hact, ha, hc, by simp⟩
        · intro hopen; simp [hp] at hopen
  · intro hopen; simp [hp] at hopen

/-! ## Building the artifact array -/

theorem lookup_of_mem_registryKeys (t : String) (h : t ∈ registryKeys) :
    ∃ info, artifactInfoEntries.lookup t = some info ∧ artifactInfo t = some info := by
  simp only [registryKeys, artifactInfoEntries, List.map_cons, List.map_nil, List.mem_cons,
    List.mem_singleton, List.not_mem_nil, or_false] at h
  rcases h with h | h | h | h | h <;> subst h <;> exact ⟨_, rfl, rfl⟩

theorem loadArtifact_error (m : Marker) (e : String) (h : loadArtifact m = Except.error e) :
    e = typeError ∧ m.unregistered := by
  unfold loadArtifact at h
  unfold Marker.unregistered
  cases ht : m.type with
  | none =>
    simp only [ht] at h
    exact ⟨(Except.error.inj h).symm, Or.inl rfl⟩
  | some t =>
    simp only [ht] at h
    cases hi : artifactInfo t with
    | none =>
      simp only [hi] at h
      exact ⟨(Except.error.inj h).symm, Or.inr ⟨t, rfl, hi⟩⟩
    | some info => simp [hi] at h

theorem loadArtifact_unregistered (m : Marker) (h : m.unregistered) :
    loadArtifact m = Except.error typeError := by
  unfold loadArtifact
  rcases h with h | ⟨t, h1, h2⟩
  · simp only [h]
  · simp only [h1, h2]

theorem loadArtifact_registered (m : Marker) (t : String) (ht : m.type = some t)
    (hk : t ∈ registryKeys) : ∃ a, loadArtifact m = Except.ok a ∧ m.builds a := by
  obtain ⟨info, h1, h2⟩ := lookup_of_mem_registryKeys t hk
  refine ⟨_, ?_, t, info, ht, h1, rfl⟩
  simp only [loadArtifact, ht, h2]

theorem loadArtifact_x (m : Marker) (a : Artifact) (h : loadArtifact m = Except.ok a) :
    a.x = (match m.x with
      | some v => v
      | none => 0) ∧ a.collected = false := by
  unfold loadArtifact at h
  cases ht : m.type with
  | none => simp [ht] at h
  | some t =>
    simp only [ht] at h
    cases hi : artifactInfo t with
    | none => simp [hi] at h
    | some info =>
      simp only [hi] at h
      have := Except.ok.inj h
      subst this
      exact ⟨rfl, rfl⟩

theorem loadArtifacts_cons_ok (m : Marker) (rest : List Marker) (a : Artifact)
    (arts : List Artifact) (h1 : loadArtifact m = Except.ok a)
    (h2 : loadArtifacts rest = Except.ok arts) :
    loadArtifacts (m :: rest) = Except.ok (a :: arts) := by
  simp only [loadArtifacts, h1, h2]

theorem loadArtifacts_ok_inv (m : Marker) (rest : List Marker) (arts : List Artifact)
    (h : loadArtifacts (m :: rest) = Except.ok arts) :
    ∃ a tl, loadArtifact m = Except.ok a ∧ loadArtifacts rest = Except.ok tl ∧
      arts = a :: tl := by
  simp only [loadArtifacts] at h
  cases h1 : loadArtifact m with
  | error e => simp [h1] at h
  | ok a =>
    cases h2 : loadArtifacts rest with
    | error e => simp [h1, h2] at h
    | ok tl =>
      simp only [h1, h2] at h
      exact ⟨a, tl, rfl, rfl, (Except.ok.inj h).symm⟩

theorem loadArtifacts_error_iff (ms : List Marker) :
    loadArtifacts ms = Except.error typeError ↔ ∃ m ∈ ms, m.unregistered := by
  induction ms with
  | nil => simp [loadArtifacts]
  | cons m rest ih =>
    cases h1 : loadArtifact m with
    | error e =>
      obtain ⟨he, hu⟩ := loadArtifact_error m e h1
      subst he
      simp only [loadArtifacts, h1, true_iff]
      exact ⟨m, List.mem_cons_self _ _, hu⟩
    | ok a =>
      have hm : ¬ m.unregistered := by
        intro hu
        rw [loadArtifact_unregistered m hu] at h1
        cases h1
      cases h2 : loadArtifacts rest with
      | error e =>
        simp only [loadArtifacts, h1, h2]
        rw [h2] at ih
        constructor
        · intro h
          obtain ⟨m', hm', hu⟩ := ih.1 h
          exact ⟨m', List.mem_cons_of_mem _ hm', hu⟩
        · rintro ⟨m', hm', hu⟩
          rcases List.mem_cons.1 hm' with h | h
          · subst h; exact absurd hu hm
          · exact ih.2 ⟨m', h, hu⟩
      | ok tl =>
        simp only [loadArtifacts, h1, h2]
        rw [h2] at ih
        constructor
        · intro h; cases h
        · rintro ⟨m', hm', hu⟩
          rcases List.mem_cons.1 hm' with h | h
          · subst h; exact absurd hu hm
          · exact absurd (ih.2 ⟨m', h, hu⟩) (by intro h; cases h)

theorem loadArtifacts_error_eq (ms : List Marker) (e : String)
    (h : loadArtifacts ms = Except.error e) : e = typeError := by
  induction ms with
  | nil => simp [loadArtifacts] at h
  | cons m rest ih =>
    simp only [loadArtifacts] at h
    cases h1 : loadArtifact m with
    | error e' =>
      simp only [h1] at h
      have := Except.error.inj h
      subst this
      exact (loadArtifact_error m e' h1).1
    | ok a =>
      cases h2 : loadArtifacts rest with
      | error e' =>
        simp only [h1, h2] at h
        have := Except.error.inj h
        subst this
        exact ih h2
      | ok tl => simp [h1, h2] at h

theorem loadArtifacts_registered (ms : List Marker)
    (h : ∀ m ∈ ms, ∃ t, m.type = some t ∧ t ∈ registryKeys) :
    ∃ arts, loadArtifacts ms = Except.ok arts ∧ List.Forall₂ Marker.builds ms arts := by
  induction ms with
  | nil => exact ⟨[], rfl, List.Forall₂.nil⟩
  | cons m rest ih =>
    obtain ⟨t, ht, hk⟩ := h m (List.mem_cons_self _ _)
    obtain ⟨a, ha, hb⟩ := loadArtifact_registered m t ht hk
    obtain ⟨arts, h1, h2⟩ := ih (fun m' hm' => h m' (List.mem_cons_of_mem _ hm'))
    exact ⟨a :: arts, loadArtifacts_cons_ok m rest a arts ha h1, List.Forall₂.cons hb h2⟩

theorem loadArtifacts_x (ms : List Marker) :
    ∀ arts, loadArtifacts ms = Except.ok arts →
      arts.map Artifact.x = ms.map (fun m => match m.x with
        | some v => v
        | none => 0) ∧ ∀ a ∈ arts, a.collected = false := by
  induction ms with
  | nil =>
    intro arts h
    simp only [loadArtifacts] at h
    have := Except.ok.inj h
    subst this
    simp
  | cons m rest ih =>
    intro arts h
    obtain ⟨a, tl, h1, h2, rfl⟩ := loadArtifacts_ok_inv m rest arts h
    obtain ⟨hx, hc⟩ := loadArtifact_x m a h1
    obtain ⟨hxs, hcs⟩ := ih tl h2
    refine ⟨by simp [hx, hxs], ?_⟩
    intro b hb
    rcases List.mem_cons.1 hb with hb | hb
    · subst hb; exact hc
    · exact hcs b hb

/-! ## Which property names the registry object has -/

theorem artifactInfo_inherited (t : String) (h : t ∈ inheritedFunctions) :
    artifactInfo t = some { name := some t, description := none } := by
  simp only [inheritedFunctions, List.mem_cons, List.mem_singleton, List.not_mem_nil,
    or_false] at h
  rcases h with h | h | h | h | h | h | h | h | h | h <;> subst h <;> rfl

theorem artifactInfo_unknown (t : String) (h1 : t ∉ registryKeys) (h2 : t ≠ "constructor")
    (h3 : t ∉ inheritedFunctions) (h4 : t ≠ "__proto__") : artifactInfo t = none := by
  simp only [registryKeys, artifactInfoEntries, List.map_cons, List.map_nil, List.mem_cons,
    List.mem_singleton, List.not_mem_nil, or_false, not_or] at h1
  obtain ⟨k1, k2, k3, k4, k5⟩ := h1
  have e1 : (t == "cuneiform") = false := beq_eq_false_iff_ne.2 k1
  have e2 : (t == "plow") = false := beq_eq_false_iff_ne.2 k2
  have e3 : (t == "irrigation") = false := beq_eq_false_iff_ne.2 k3
  have e4 : (t == "wheel") = false := beq_eq_false_iff_ne.2 k4
  have e5 : (t == "math") = false := beq_eq_false_iff_ne.2 k5
  simp [artifactInfo, artifactInfoEntries, List.lookup, e1, e2, e3, e4, e5, h2, h3, h4]

theorem artifactInfo_none_iff (t : String) :
    artifactInfo t = none ↔
      t ∉ registryKeys ∧ t ≠ "constructor" ∧ t ∉ inheritedFunctions ∧ t ≠ "__proto__" := by
  constructor
  · intro h
    refine ⟨?_, ?_, ?_, ?_⟩
    · intro hk
      obtain ⟨info, _, h2⟩ := lookup_of_mem_registryKeys t hk
      rw [h2] at h; cases h
    · intro hk
      subst hk
      exact absurd h (by decide)
    · intro hk
      rw [artifactInfo_inherited t hk] at h; cases h
    · intro hk
      subst hk
      exact absurd h (by decide)
  · rintro ⟨h1, h2, h3, h4⟩
    exact artifactInfo_unknown t h1 h2 h3 h4

theorem unregistered_iff (m : Marker) :
    m.unregistered ↔
      (m.type = none ∨ ∃ t, m.type = some t ∧ t ∉ registryKeys ∧ t ≠ "constructor" ∧
        t ∉ inheritedFunctions ∧ t ≠ "__proto__") := by
  unfold Marker.unregistered
  constructor
  · rintro (h | ⟨t, h1, h2⟩)
    · exact Or.inl h
    · exact Or.inr ⟨t, h1, (artifactInfo_none_iff t).1 h2⟩
  · rintro (h | ⟨t, h1, h2⟩)
    · exact Or.inl h
    · exact Or.inr ⟨t, h1, (artifactInfo_none_iff t).2 h2⟩

theorem loadArtifact_inherited (t : String) (x : Option Int)
    (h : t = "constructor" ∨ t ∈ inheritedFunctions ∨ t = "__proto__") :
    loadArtifact { type := some t, x := x } = Except.ok
      { x := (match x with
          | some v => v
          | none => 0)
        type := t
        name := if t = "constructor" then some "Object"
          else if t = "__proto__" then none else some t
        description := none
        collected := false } := by
  rcases h with h | h | h
  · subst h; rfl
  · have hi := artifactInfo_inherited t h
    have h1 : t ≠ "constructor" := by
      intro e; subst e; exact absurd h (by decide)
    have h2 : t ≠ "__proto__" := by
      intro e; subst e; exact absurd h (by decide)
    simp only [loadArtifact, hi, h1, h2, if_false]
  · subst h; rfl

/-! ## Claims -/

/-- C1: from the start-up state (player at 100, popup closed), after every
sequence of key-down, key-up, close-click and frame events the player's
position is within `0 .. WORLD_WIDTH - PLAYER_WIDTH = 2368`; and
`handleMovement` alone puts the position in that interval from any position
and any `keys` object. -/
theorem position_bound_invariant :
    (∀ (page : Page) (arts : List Artifact) (evs : List Event),
      0 ≤ (run (initGame page arts) evs).playerX ∧
      (run (initGame page arts) evs).playerX ≤ 2368) ∧
    (∀ s : Game, 0 ≤ (handleMovement s).playerX ∧ (handleMovement s).playerX ≤ 2368) := by
  refine ⟨fun page arts evs => ?_, fun s => ?_⟩
  · have h0 : InWorld (initGame page arts).playerX := by
      simp [InWorld, initGame, WORLD_WIDTH, PLAYER_WIDTH]
    have h := run_inWorld evs (initGame page arts) h0
    simpa [InWorld, WORLD_WIDTH, PLAYER_WIDTH] using h
  · simpa [InWorld, WORLD_WIDTH, PLAYER_WIDTH] using handleMovement_inWorld s

/-- C2: after `checkArtifacts` the active artifact is `null` exactly when no
uncollected artifact is at a distance below 60 from the player; otherwise it
is an uncollected artifact of the array at a distance below 60 and no
uncollected artifact is strictly nearer. So an artifact at distance 60 or
more, or a collected one, is never selected. With artifacts at 100, 500, 900:
the player at 150 gets the artifact at 100, the player at 170 gets none. -/
theorem checkArtifacts_selects_nearest :
    (∀ s : Game,
      ((checkArtifacts s).activeArtifact = none ↔
        ∀ a ∈ s.artifacts, a.collected = false → ¬ distance s.playerX a < 60) ∧
      (∀ i, (checkArtifacts s).activeArtifact = some i →
        ∃ a, (checkArtifacts s).artifacts[i]? = some a ∧ a ∈ s.artifacts ∧
          a.collected = false ∧ distance s.playerX a < 60 ∧
          ∀ b ∈ s.artifacts, b.collected = false →
            distance s.playerX a ≤ distance s.playerX b)) ∧
    (∀ s : Game, s.artifacts.map Artifact.x = [100, 500, 900] →
      (∀ a ∈ s.artifacts, a.collected = false) →
      (s.playerX = 150 → (checkArtifacts s).activeArtifact = some 0) ∧
      (s.playerX = 170 → (checkArtifacts s).activeArtifact = none)) := by
  refine ⟨fun s => ⟨?_, ?_⟩, ?_⟩
  · rw [checkArtifacts_activeArtifact, Option.map_eq_none']
    exact closestArtifact_none s.playerX s.artifacts
  · intro i hi
    rw [checkArtifacts_activeArtifact] at hi
    cases hc : closestArtifact s.playerX s.artifacts with
    | none => simp [hc] at hi
    | some ja =>
      obtain ⟨j, a⟩ := ja
      simp [hc] at hi
      subst hi
      obtain ⟨h1, h2, h3, h4⟩ := closestArtifact_some s.playerX s.artifacts j a hc
      exact ⟨a, by rw [checkArtifacts_artifacts]; exact h1,
        List.mem_iff_getElem?.2 ⟨j, h1⟩, h2, h3, h4⟩
  · intro s hx hc
    rw [checkArtifacts_activeArtifact]
    rcases hl : s.artifacts with _ | ⟨a, _ | ⟨b, _ | ⟨c, _ | ⟨d, l⟩⟩⟩⟩ <;> rw [hl] at hx <;>
      simp at hx
    obtain ⟨ha, hb, hd⟩ := hx
    have hac : a.collected = false := hc a (by simp [hl])
    have hbc : b.collected = false := hc b (by simp [hl])
    have hcc : c.collected = false := hc c (by simp [hl])
    constructor
    · intro hp
      simp [closestArtifact, scanFrom, scanStep, distance, hp, ha, hb, hd, hac, hbc, hcc]
    · intro hp
      simp [closestArtifact, scanFrom, scanStep, distance, hp, ha, hb, hd, hac, hbc, hcc]

/-- C2, worked instance: artifacts at 100, 500 and 900, none collected; the
player at 150 gets the first one, the player at 170 gets none. -/
theorem checkArtifacts_selects_nearest_witness :
    (checkArtifacts { initGame samplePage [tabletAt 100, plowAt 500, wheelAt 900] with
        playerX := 150 }).activeArtifact = some 0 ∧
    (checkArtifacts { initGame samplePage [tabletAt 100, plowAt 500, wheelAt 900] with
        playerX := 170 }).activeArtifact = none :=
  ⟨(checkArtifacts_selects_nearest.2 _ (by decide) (by decide)).1 rfl,
   (checkArtifacts_selects_nearest.2 _ (by decide) (by decide)).2 rfl⟩

/-- C3: with the popup closed and the active artifact `a` (at index `i`) not
yet collected, a key-down of the interact key opens the popup with `a.name`
and `a.description` as title and body, sets `a.collected`, adds exactly one
to `foundCount`, and leaves `playerX` and every other artifact unchanged. -/
theorem first_inspection_effect (s : Game) (k : String) (i : Nat) (a : Artifact)
    (hk : toLowerCase k = "e") (hp : s.popupOpen = false)
    (hact : s.activeArtifact = some i) (ha : s.artifacts[i]? = some a)
    (hc : a.collected = false) :
    (keydown s k).popupOpen = true ∧
    (keydown s k).popupHidden = false ∧
    (keydown s k).popupTitle = textContent a.name ∧
    (keydown s k).popupText = textContent a.description ∧
    (keydown s k).artifacts[i]? = some { a with collected := true } ∧
    (keydown s k).foundCount = s.foundCount + 1 ∧
    (keydown s k).playerX = s.playerX ∧
    (keydown s k).artifacts.length = s.artifacts.length ∧
    (∀ j, j ≠ i → (keydown s k).artifacts[j]? = s.artifacts[j]?) := by
  have hlt : i < s.artifacts.length := (List.getElem?_eq_some.1 ha).1
  rw [keydown_interact_closed s k hk hp]
  simp only [hact, ha, hc, openPopup, Bool.not_false, if_true]
  refine ⟨trivial, trivial, trivial, trivial, ?_, trivial, trivial, ?_, ?_⟩
  · simp [List.getElem?_set, hlt]
  · simp
  · intro j hj
    simp [List.getElem?_set, Ne.symm hj]

/-- C3, worked instance: the player stands at the tablet placed at 100, a plow
is at 500; pressing `E` collects the tablet and only the tablet. -/
theorem first_inspection_effect_witness :
    (keydown (start samplePage [tabletAt 100, plowAt 500]) "E").popupOpen = true ∧
    (keydown (start samplePage [tabletAt 100, plowAt 500]) "E").popupTitle
      = "Cuneiform Tablet" ∧
    (keydown (start samplePage [tabletAt 100, plowAt 500]) "E").foundCount = 1 ∧
    (keydown (start samplePage [tabletAt 100, plowAt 500]) "E").artifacts
      = [{ tabletAt 100 with collected := true }, plowAt 500] := by
  have h := first_inspection_effect (start samplePage [tabletAt 100, plowAt 500]) "E" 0
    (tabletAt 100) (by decide) (by decide) (by decide) (by decide) (by decide)
  refine ⟨h.1, h.2.2.1, h.2.2.2.2.2.1, by decide⟩

/-- C8: with the popup closed and the active artifact already collected (or no
active artifact at all), a key-down of the interact key only records the key:
the popup stays closed and `foundCount`, the artifacts with their collected
flags, `playerX`, `activeArtifact` and the status message are unchanged. -/
theorem reinspect_collected_noop (s : Game) (k : String)
    (hk : toLowerCase k = "e") (hp : s.popupOpen = false)
    (hact : s.activeArtifact = none ∨
      ∃ i a, s.activeArtifact = some i ∧ s.artifacts[i]? = some a ∧ a.collected = true) :
    keydown s k = { s with keys := setKey s.keys "e" true } ∧
    (keydown s k).popupOpen = false ∧
    (keydown s k).foundCount = s.foundCount ∧
    (keydown s k).artifacts = s.artifacts ∧
    (keydown s k).playerX = s.playerX ∧
    (keydown s k).activeArtifact = s.activeArtifact ∧
    (keydown s k).message = s.message := by
  have h : keydown s k = { s with keys := setKey s.keys "e" true } := by
    rw [keydown_interact_closed s k hk hp]
    rcases hact with h | ⟨i, a, h1, h2, h3⟩
    · simp only [h]
    · simp only [h1, h2, h3, Bool.not_true, Bool.false_eq_true, if_false]
  rw [h]
  exact ⟨rfl, hp, rfl, rfl, rfl, rfl, rfl⟩

/-- C8, worked instance: the tablet has been inspected and the popup closed;
before the next frame the tablet is still the active artifact, and pressing
`E` again changes nothing but the `keys` object. -/
theorem reinspect_collected_noop_witness :
    (run (start samplePage [tabletAt 100]) [Event.keydown "e", Event.closeClick]).popupOpen
      = false ∧
    (keydown (run (start samplePage [tabletAt 100]) [Event.keydown "e", Event.closeClick])
      "E").popupOpen = false ∧
    (keydown (run (start samplePage [tabletAt 100]) [Event.keydown "e", Event.closeClick])
      "E").foundCount = 1 ∧
    (keydown (run (start samplePage [tabletAt 100]) [Event.keydown "e", Event.closeClick])
      "E").message = msgComplete := by
  have h := reinspect_collected_noop
    (run (start samplePage [tabletAt 100]) [Event.keydown "e", Event.closeClick]) "E"
    (by decide) (by decide)
    (Or.inr ⟨0, { tabletAt 100 with collected := true }, by decide, by decide, by decide⟩)
  exact ⟨by decide, h.2.1, h.2.2.1.trans (by decide), h.2.2.2.2.2.2.trans (by decide)⟩

/-- C4: in every state reached from the start-up state (no artifact collected)
by key-down, key-up, close-click and frame events, `foundCount` is the number
of artifacts whose `collected` flag is set, hence at most `totalArtifacts`;
and no event ever decreases `foundCount`. -/
theorem found_counter_invariant (page : Page) (arts : List Artifact)
    (h0 : ∀ a ∈ arts, a.collected = false) (evs : List Event) :
    (run (initGame page arts) evs).foundCount
      = collectedCount (run (initGame page arts) evs).artifacts ∧
    (run (initGame page arts) evs).foundCount
      ≤ (run (initGame page arts) evs).totalArtifacts ∧
    (∀ (s : Game) (e : Event), s.foundCount ≤ (step s e).foundCount) := by
  have hinit : CounterOk (initGame page arts) := by
    simp [CounterOk, initGame, collectedCount_of_uncollected arts h0]
  have h := run_counterOk evs (initGame page arts) hinit
  refine ⟨h, ?_, step_foundCount_le⟩
  rw [h]
  exact collectedCount_le_length _

/-- C4, worked instance: a tablet at 100 and a plow at 500; the tablet is
inspected, the popup closed, `E` pressed again: one artifact is flagged and
the counter is one. -/
theorem found_counter_invariant_witness :
    (∀ a ∈ [tabletAt 100, plowAt 500], a.collected = false) ∧
    (run (initGame samplePage [tabletAt 100, plowAt 500])
      [Event.frame, Event.keydown "e", Event.closeClick, Event.keydown "e",
        Event.frame]).foundCount = 1 ∧
    collectedCount (run (initGame samplePage [tabletAt 100, plowAt 500])
      [Event.frame, Event.keydown "e", Event.closeClick, Event.keydown "e",
        Event.frame]).artifacts = 1 :=
  ⟨by decide, by decide,
    (found_counter_invariant samplePage [tabletAt 100, plowAt 500] (by decide)
      [Event.frame, Event.keydown "e", Event.closeClick, Event.keydown "e",
        Event.frame]).1.symm.trans (by decide)⟩

/-- C5: while the popup is open no event moves the player: a frame leaves
`playerX` unchanged whatever keys are held, and so do key-down, key-up and
close events; hence over any sequence of events before each of which the
popup is open (the last one may close it) `playerX` keeps the value it had. -/
theorem movement_frozen_while_open (s : Game) (hp : s.popupOpen = true) :
    (update s).playerX = s.playerX ∧
    (∀ e : Event, (step s e).playerX = s.playerX) ∧
    (∀ evs : List Event,
      (∀ n, n < evs.length → (run s (evs.take n)).popupOpen = true) →
      (run s evs).playerX = s.playerX) := by
  have hstep : ∀ t : Game, t.popupOpen = true → ∀ e : Event, (step t e).playerX = t.playerX := by
    intro t ht e
    cases e with
    | keydown k => exact keydown_playerX t k
    | keyup k => rfl
    | closeClick => rfl
    | frame => exact update_playerX_of_open t ht
  refine ⟨update_playerX_of_open s hp, hstep s hp, ?_⟩
  intro evs
  induction evs generalizing s with
  | nil => intro _; rfl
  | cons e rest ih =>
    intro hopen
    rw [run_cons]
    cases rest with
    | nil => exact hstep s hp e
    | cons e2 rest2 =>
      have h1 : (step s e).popupOpen = true := by
        have := hopen 1 (by simp)
        simpa [run] using this
      have h2 := ih (step s e) h1 (fun n hn => by
        have := hopen (n + 1) (by simpa using hn)
        simpa [run_cons] using this)
      rw [h2]
      exact hstep s hp e

/-- C5, worked instance: the right arrow is pressed and then `E` opens the
popup on the tablet at 100, so the right arrow is held while the popup is
open; two frames, a key-down of `D` and the closing `Escape` later the player
is still at 100. -/
theorem movement_frozen_while_open_witness :
    (run (start samplePage [tabletAt 100])
      [Event.keydown "ArrowRight", Event.keydown "e"]).popupOpen = true ∧
    getKey (run (start samplePage [tabletAt 100])
      [Event.keydown "ArrowRight", Event.keydown "e"]).keys "arrowright" = true ∧
    (run (run (start samplePage [tabletAt 100])
        [Event.keydown "ArrowRight", Event.keydown "e"])
      [Event.frame, Event.keydown "d", Event.frame, Event.keydown "Escape"]).playerX = 100 ∧
    (run (run (start samplePage [tabletAt 100])
        [Event.keydown "ArrowRight", Event.keydown "e"])
      [Event.frame, Event.keydown "d", Event.frame, Event.keydown "Escape"]).popupOpen
        = false :=
  ⟨by decide, by decide,
   ((movement_frozen_while_open
      (run (start samplePage [tabletAt 100]) [Event.keydown "ArrowRight", Event.keydown "e"])
      (by decide)).2.2
      [Event.frame, Event.keydown "d", Event.frame, Event.keydown "Escape"]
      (by decide)).trans (by decide),
   by decide⟩

/-- C6: the camera offset `handleMovement` writes is the clamp of
`playerX - GAME_WIDTH / 2` to `0 .. WORLD_WIDTH - GAME_WIDTH`, with `playerX`
the position it has just updated and clamped: `clamp (playerX - 400) 0 1600`,
a value between 0 and 1600. -/
theorem camera_offset_is_clamp (s : Game) :
    (handleMovement s).cameraX
      = clamp ((handleMovement s).playerX - GAME_WIDTH / 2) 0 (WORLD_WIDTH - GAME_WIDTH) ∧
    (handleMovement s).cameraX = clamp ((handleMovement s).playerX - 400) 0 1600 ∧
    0 ≤ (handleMovement s).cameraX ∧ (handleMovement s).cameraX ≤ 1600 := by
  rw [handleMovement_cameraX s]
  generalize (handleMovement s).playerX = p
  simp only [clamp, GAME_WIDTH, WORLD_WIDTH]
  refine ⟨?_, ?_, ?_, ?_⟩ <;> split_ifs <;> omega

/-- C7: with the popup closed, the player inside the world and both a left key
and a right key held, one frame leaves `playerX` unchanged, at the world
bounds as anywhere else. -/
theorem opposite_inputs_cancel (s : Game) (hp : s.popupOpen = false)
    (hx : 0 ≤ s.playerX ∧ s.playerX ≤ 2368)
    (hl : getKey s.keys "arrowleft" = true ∨ getKey s.keys "a" = true)
    (hr : getKey s.keys "arrowright" = true ∨ getKey s.keys "d" = true) :
    (update s).playerX = s.playerX ∧ (step s Event.frame).playerX = s.playerX := by
  have hl' : (getKey s.keys "arrowleft" || getKey s.keys "a") = true := by
    simpa [Bool.or_eq_true] using hl
  have hr' : (getKey s.keys "arrowright" || getKey s.keys "d") = true := by
    simpa [Bool.or_eq_true] using hr
  have h : (update s).playerX = s.playerX := by
    rw [update_playerX_of_closed s hp]
    simp only [handleMovement, hl', hr', if_true, WORLD_WIDTH, PLAYER_WIDTH, PLAYER_SPEED]
    repeat' split
    all_goals omega
  exact ⟨h, h⟩

/-- C7, worked instance: at the right bound 2368 with `A` and the right arrow
held, the frame leaves the player at 2368. -/
theorem opposite_inputs_cancel_witness :
    (update { initGame samplePage [] with
      playerX := 2368, keys := [("a", true), ("arrowright", true)] }).playerX = 2368 :=
  (opposite_inputs_cancel
    { initGame samplePage [] with
      playerX := 2368, keys := [("a", true), ("arrowright", true)] }
    rfl (by decide) (Or.inr (by decide)) (Or.inl (by decide))).1

/-- C9: the code at a state where the claim fails. A tablet at 100 and a plow
at 120, the player at 100: `E` opens the popup on the tablet and the message
is the discovery text; the popup is still open at the next frame, the plow is
in range, and `checkArtifacts` replaces the message by the plow's prompt. The
`else` branch of `checkArtifacts` tests `popupOpen` before it writes the
message; the branch for an artifact in range does not. -/
theorem frame_overwrites_message_while_open :
    (run (start samplePage [tabletAt 100, plowAt 120]) [Event.keydown "e"]).popupOpen
      = true ∧
    (run (start samplePage [tabletAt 100, plowAt 120]) [Event.keydown "e"]).message
      = msgGreat ∧
    (step (run (start samplePage [tabletAt 100, plowAt 120]) [Event.keydown "e"])
      Event.frame).popupOpen = true ∧
    (step (run (start samplePage [tabletAt 100, plowAt 120]) [Event.keydown "e"])
      Event.frame).message = "You see a The Plow. Press E to inspect it." ∧
    (step (run (start samplePage [tabletAt 100, plowAt 120]) [Event.keydown "e"])
      Event.frame).message
      ≠ (run (start samplePage [tabletAt 100, plowAt 120]) [Event.keydown "e"]).message := by
  refine ⟨by decide, by decide, by decide, by decide, by decide⟩

/-- C10 as stated fails: after start-up with a tablet at 100 the popup is
closed and the message is the tablet's prompt; a click on the close button
leaves the popup closed but replaces the message by the exploration prompt. -/
theorem close_while_closed_changes_message :
    (start samplePage [tabletAt 100]).popupOpen = false ∧
    (start samplePage [tabletAt 100]).message
      = "You see a Cuneiform Tablet. Press E to inspect it." ∧
    (step (start samplePage [tabletAt 100]) Event.closeClick).message = msgExplore ∧
    (step (start samplePage [tabletAt 100]) Event.closeClick).message
      ≠ (start samplePage [tabletAt 100]).message := by
  refine ⟨by decide, by decide, by decide, by decide⟩

/-- C10, amended: with the popup closed, `closePopup` leaves `popupOpen`,
`playerX`, `activeArtifact`, `foundCount` and the artifacts with their
collected flags unchanged, and sets the status message to the
mission-complete text when `foundCount = totalArtifacts`, to the exploration
prompt otherwise; closing a second time changes nothing more. -/
theorem close_while_closed (s : Game) (hp : s.popupOpen = false) :
    (closePopup s).popupOpen = s.popupOpen ∧
    (closePopup s).playerX = s.playerX ∧
    (closePopup s).activeArtifact = s.activeArtifact ∧
    (closePopup s).foundCount = s.foundCount ∧
    (closePopup s).artifacts = s.artifacts ∧
    (closePopup s).message
      = (if s.foundCount = s.totalArtifacts then msgComplete else msgExplore) ∧
    step s Event.closeClick = closePopup s ∧
    closePopup (closePopup s) = closePopup s := by
  refine ⟨?_, rfl, rfl, rfl, rfl, rfl, rfl, rfl⟩
  rw [hp]; rfl

/-- C10, worked instance: after start-up with a tablet at 100, a close click
keeps the popup closed and the counter at 0 and writes the exploration
prompt. -/
theorem close_while_closed_witness :
    (start samplePage [tabletAt 100]).popupOpen = false ∧
    (closePopup (start samplePage [tabletAt 100])).popupOpen = false ∧
    (closePopup (start samplePage [tabletAt 100])).foundCount = 0 ∧
    (closePopup (start samplePage [tabletAt 100])).message = msgExplore := by
  have h := close_while_closed (start samplePage [tabletAt 100]) (by decide)
  exact ⟨by decide, h.1.trans (by decide), h.2.2.2.1.trans (by decide),
    h.2.2.2.2.2.1.trans (by decide)⟩

/-- C11: after `closePopup` the popup is closed and the status message is the
mission-complete text when `foundCount = totalArtifacts`, the exploration
prompt otherwise; a click on the close button is `closePopup`, and so is a
key-down of space, enter or escape while the popup is open. -/
theorem message_on_close (s : Game) :
    (closePopup s).popupOpen = false ∧
    (closePopup s).message
      = (if s.foundCount = s.totalArtifacts then msgComplete else msgExplore) ∧
    step s Event.closeClick = closePopup s ∧
    (∀ k : String, s.popupOpen = true →
      (toLowerCase k = " " ∨ toLowerCase k = "enter" ∨ toLowerCase k = "escape") →
      (keydown s k).popupOpen = false ∧
      (keydown s k).message
        = (if s.foundCount = s.totalArtifacts then msgComplete else msgExplore)) := by
  refine ⟨rfl, rfl, rfl, ?_⟩
  intro k hp hk
  rw [keydown_open_close s k hp hk]
  exact ⟨rfl, rfl⟩

/-- C11, worked instance: with a tablet and a plow, the popup on the tablet is
closed by `Enter` with one artifact found of two: the exploration prompt. With
the tablet alone, `Escape` closes with one found of one: mission complete. -/
theorem message_on_close_witness :
    (keydown (run (start samplePage [tabletAt 100, plowAt 500]) [Event.keydown "e"])
      "Enter").message = msgExplore ∧
    (keydown (run (start samplePage [tabletAt 100]) [Event.keydown "e"])
      "Escape").message = msgComplete ∧
    (keydown (run (start samplePage [tabletAt 100]) [Event.keydown "e"])
      "Escape").popupOpen = false :=
  ⟨(((message_on_close
        (run (start samplePage [tabletAt 100, plowAt 500]) [Event.keydown "e"])).2.2.2
      "Enter" (by decide) (by decide)).2).trans (by decide),
   (((message_on_close (run (start samplePage [tabletAt 100]) [Event.keydown "e"])).2.2.2
      "Escape" (by decide) (by decide)).2).trans (by decide),
   ((message_on_close (run (start samplePage [tabletAt 100]) [Event.keydown "e"])).2.2.2
      "Escape" (by decide) (by decide)).1⟩

/-- C13: with the popup open, a key-down whose lower-cased key is not space,
enter or escape leaves the whole state as it was. -/
theorem other_keys_ignored_while_open (s : Game) (k : String) (hp : s.popupOpen = true)
    (hk : toLowerCase k ≠ " " ∧ toLowerCase k ≠ "enter" ∧ toLowerCase k ≠ "escape") :
    keydown s k = s ∧ step s (Event.keydown k) = s := by
  have h : keydown s k = s :=
    keydown_open_other s k hp (by
      rintro (h | h | h)
      · exact hk.1 h
      · exact hk.2.1 h
      · exact hk.2.2 h)
  exact ⟨h, h⟩

/-- C13, worked instance: the popup is open on the tablet; a key-down of the
left arrow, of `E` or of `x` returns the same state. -/
theorem other_keys_ignored_while_open_witness :
    (run (start samplePage [tabletAt 100]) [Event.keydown "e"]).popupOpen = true ∧
    keydown (run (start samplePage [tabletAt 100]) [Event.keydown "e"]) "ArrowLeft"
      = run (start samplePage [tabletAt 100]) [Event.keydown "e"] :=
  ⟨by decide,
   (other_keys_ignored_while_open (run (start samplePage [tabletAt 100]) [Event.keydown "e"])
      "ArrowLeft" (by decide) (by decide)).1⟩

/-- C14 as stated fails: the popup is open on the tablet and `d` is not held;
after a key-down of `d` (or of the right arrow) the key is still not held. -/
theorem keydown_while_open_not_recorded :
    (run (start samplePage [tabletAt 100]) [Event.keydown "e"]).popupOpen = true ∧
    getKey (step (run (start samplePage [tabletAt 100]) [Event.keydown "e"])
      (Event.keydown "d")).keys "d" = false ∧
    getKey (step (run (start samplePage [tabletAt 100]) [Event.keydown "e"])
      (Event.keydown "ArrowRight")).keys "arrowright" = false := by
  refine ⟨by decide, by decide, by decide⟩

/-- C14, amended: with the popup open a key-down of a movement key is not
recorded: the listener returns before it writes `keys`, so the `keys` object
and the key's held state stay as they were. A key-up is still recorded (the
key reads as not held), a frame does not move the player whatever `keys`
holds, and with the popup closed a key-down does set the key's held state. -/
theorem movement_keydown_while_open (s : Game) (k : String) (hp : s.popupOpen = true)
    (hk : toLowerCase k = "arrowleft" ∨ toLowerCase k = "arrowright" ∨
      toLowerCase k = "a" ∨ toLowerCase k = "d") :
    (keydown s k).keys = s.keys ∧
    getKey (keydown s k).keys (toLowerCase k) = getKey s.keys (toLowerCase k) ∧
    getKey (keyup s k).keys (toLowerCase k) = false ∧
    (update s).playerX = s.playerX ∧
    (∀ t : Game, t.popupOpen = false → getKey (keydown t k).keys (toLowerCase k) = true) := by
  have h : keydown s k = s :=
    keydown_open_other s k hp (by
      rcases hk with h | h | h | h <;> rw [h] <;> decide)
  refine ⟨by rw [h], by rw [h], ?_, update_playerX_of_open s hp, ?_⟩
  · exact getKey_setKey_same s.keys (toLowerCase k) false
  · intro t ht
    exact keydown_closed_records t k ht

/-- C14, worked instance: the popup is open on the tablet with only `e` in
`keys`; a key-down of `D` leaves `keys` as it was. -/
theorem movement_keydown_while_open_witness :
    (run (start samplePage [tabletAt 100]) [Event.keydown "e"]).popupOpen = true ∧
    (keydown (run (start samplePage [tabletAt 100]) [Event.keydown "e"]) "D").keys
      = [("e", true)] :=
  ⟨by decide,
   (movement_keydown_while_open (run (start samplePage [tabletAt 100]) [Event.keydown "e"])
      "D" (by decide) (Or.inr (Or.inr (Or.inr (by decide))))).1.trans (by decide)⟩

/-- C12: when several uncollected artifacts are at the least distance from the
player and that distance is below 60, `checkArtifacts` makes the first of them
in the array the active artifact: if the artifact at index `j` is uncollected,
nearer than 60, no uncollected artifact is nearer, and no uncollected artifact
before it is at the same distance, then `activeArtifact` is index `j`. -/
theorem tie_break_first_in_order (s : Game) (j : Nat) (b : Artifact)
    (hb : s.artifacts[j]? = some b) (hbc : b.collected = false)
    (hlt : distance s.playerX b < 60)
    (hmin : ∀ c ∈ s.artifacts, c.collected = false →
      distance s.playerX b ≤ distance s.playerX c)
    (hfirst : ∀ i c, i < j → s.artifacts[i]? = some c → c.collected = false →
      distance s.playerX c ≠ distance s.playerX b) :
    (checkArtifacts s).activeArtifact = some j := by
  rw [checkArtifacts_activeArtifact]
  have hbmem : b ∈ s.artifacts := List.mem_iff_getElem?.2 ⟨j, hb⟩
  cases hc : closestArtifact s.playerX s.artifacts with
  | none =>
    exact absurd hlt ((closestArtifact_none s.playerX s.artifacts).1 hc b hbmem hbc)
  | some ia =>
    obtain ⟨i, a⟩ := ia
    obtain ⟨h1, h2, _, h4⟩ := closestArtifact_some s.playerX s.artifacts i a hc
    have hamem : a ∈ s.artifacts := List.mem_iff_getElem?.2 ⟨i, h1⟩
    have hab := h4 b hbmem hbc
    have hba := hmin a hamem h2
    have hij : i = j := by
      rcases Nat.lt_trichotomy i j with hlt' | heq | hgt
      · exact absurd (le_antisymm hab hba) (hfirst i a hlt' h1 h2)
      · exact heq
      · have := closestArtifact_first s.playerX s.artifacts i a hc j b hgt hb hbc
        omega
    simp [hij]

/-- C12, worked instance: a tablet at 100 listed before a plow at 120, the
player at 110, both at distance 10: the tablet, index 0, is selected. -/
theorem tie_break_first_in_order_witness :
    distance 110 (tabletAt 100) = distance 110 (plowAt 120) ∧
    (checkArtifacts { initGame samplePage [tabletAt 100, plowAt 120] with
      playerX := 110 }).activeArtifact = some 0 :=
  ⟨by decide,
   tie_break_first_in_order
    { initGame samplePage [tabletAt 100, plowAt 120] with playerX := 110 } 0 (tabletAt 100)
    rfl rfl (by decide) (by decide) (by intro i c hi; omega)⟩

/-- C15 as stated fails: the popup is open on the tablet, which is the active
artifact; at the next frame the popup is still open and `checkArtifacts`,
which skips the collected tablet, sets `activeArtifact` to `null`. -/
theorem frame_changes_active_while_open :
    (run (start samplePage [tabletAt 100]) [Event.keydown "e"]).popupOpen = true ∧
    (run (start samplePage [tabletAt 100]) [Event.keydown "e"]).activeArtifact = some 0 ∧
    (step (run (start samplePage [tabletAt 100]) [Event.keydown "e"])
      Event.frame).popupOpen = true ∧
    (step (run (start samplePage [tabletAt 100]) [Event.keydown "e"])
      Event.frame).activeArtifact = none := by
  refine ⟨by decide, by decide, by decide, by decide⟩

/-- C15, amended: with the popup open a frame leaves `playerX`, the artifacts
and `popupOpen` as they were and still runs `checkArtifacts`:
`activeArtifact` becomes the artifact the scan selects for the unchanged
position, or `null`. A second frame then changes it no more, and key-down,
key-up and close events do not change it. -/
theorem active_recomputed_while_open (s : Game) (hp : s.popupOpen = true) :
    (update s).activeArtifact = (checkArtifacts s).activeArtifact ∧
    (update s).activeArtifact = (closestArtifact s.playerX s.artifacts).map Prod.fst ∧
    (update s).playerX = s.playerX ∧
    (update s).artifacts = s.artifacts ∧
    (update s).popupOpen = true ∧
    (update (update s)).activeArtifact = (update s).activeArtifact ∧
    (∀ k : String, (keydown s k).activeArtifact = s.activeArtifact) ∧
    (∀ k : String, (keyup s k).activeArtifact = s.activeArtifact) ∧
    (closePopup s).activeArtifact = s.activeArtifact := by
  have hu : update s = checkArtifacts s := update_open s hp
  have hp' : (update s).popupOpen = true := by rw [update_popupOpen, hp]
  refine ⟨by rw [hu], by rw [hu, checkArtifacts_activeArtifact], update_playerX_of_open s hp,
    update_artifacts s, hp', ?_, fun k => keydown_open_activeArtifact s k hp, fun _ => rfl, rfl⟩
  rw [update_open (update s) hp', checkArtifacts_activeArtifact, update_artifacts,
    update_playerX_of_open s hp, hu, checkArtifacts_activeArtifact]

/-- C15, worked instance: the popup is open on the tablet at 100 and a plow
stands at 120; the frame makes the plow, index 1, the active artifact. -/
theorem active_recomputed_while_open_witness :
    (run (start samplePage [tabletAt 100, plowAt 120]) [Event.keydown "e"]).activeArtifact
      = some 0 ∧
    (update (run (start samplePage [tabletAt 100, plowAt 120])
      [Event.keydown "e"])).activeArtifact = some 1 :=
  ⟨by decide,
   (active_recomputed_while_open
      (run (start samplePage [tabletAt 100, plowAt 120]) [Event.keydown "e"])
      (by decide)).2.1.trans (by decide)⟩

/-- C16: once every artifact has been found (`foundCount = totalArtifacts`)
and the popup is closed, in a state reached from start-up, no sequence of
key-down, key-up, close-click and frame events opens the popup again; the
events are still processed and the artifacts stay as they are. -/
theorem no_popup_after_completion (page : Page) (arts : List Artifact)
    (h0 : ∀ a ∈ arts, a.collected = false) (evs : List Event)
    (hclosed : (run (initGame page arts) evs).popupOpen = false)
    (hall : (run (initGame page arts) evs).foundCount
      = (run (initGame page arts) evs).totalArtifacts)
    (evs' : List Event) :
    (run (run (initGame page arts) evs) evs').popupOpen = false ∧
    (run (run (initGame page arts) evs) evs').artifacts
      = (run (initGame page arts) evs).artifacts := by
  have hinit : CounterOk (initGame page arts) := by
    simp [CounterOk, initGame, collectedCount_of_uncollected arts h0]
  have hc := run_counterOk evs (initGame page arts) hinit
  exact run_done evs' _ hclosed (allCollected_of_counter _ hc hall)

/-- C16, worked instance: one tablet at 100, inspected and closed; frames and
further presses of `E` next to it leave the popup closed. -/
theorem no_popup_after_completion_witness :
    (run (initGame samplePage [tabletAt 100])
      [Event.frame, Event.keydown "e", Event.keydown " "]).foundCount = 1 ∧
    (run (run (initGame samplePage [tabletAt 100])
        [Event.frame, Event.keydown "e", Event.keydown " "])
      [Event.frame, Event.keydown "e", Event.frame, Event.keydown "E"]).popupOpen = false :=
  ⟨by decide,
   (no_popup_after_completion samplePage [tabletAt 100] (by decide)
      [Event.frame, Event.keydown "e", Event.keydown " "] (by decide) (by decide)
      [Event.frame, Event.keydown "e", Event.frame, Event.keydown "E"]).1⟩

/-- C19: in every state reached from the end of the script by key-down,
key-up, close-click and frame events, the active artifact, if there is one,
is at a distance below 60 from the player; so whenever a key-down opens the
popup, it opens it for the active artifact `a`, which is uncollected and at a
distance below 60 at that moment. -/
theorem popup_opens_only_in_range (s : Game) (hs : Reachable s) :
    (∀ i, s.activeArtifact = some i →
      ∃ a, s.artifacts[i]? = some a ∧ distance s.playerX a < 60) ∧
    (∀ k : String, s.popupOpen = false → (keydown s k).popupOpen = true →
      ∃ i a, s.activeArtifact = some i ∧ s.artifacts[i]? = some a ∧
        a.collected = false ∧ distance s.playerX a < 60 ∧
        (keydown s k).popupTitle = textContent a.name ∧
        (keydown s k).popupText = textContent a.description ∧
        (keydown s k).playerX = s.playerX) := by
  have hr := reachable_activeInRange s hs
  refine ⟨hr, ?_⟩
  intro k hp hopen
  obtain ⟨i, a, hact, ha, hc, hk⟩ := keydown_opens s k hp hopen
  obtain ⟨a', ha', hd⟩ := hr i hact
  rw [ha] at ha'
  simp only [Option.some.injEq] at ha'
  subst ha'
  refine ⟨i, a, hact, ha, hc, hd, ?_, ?_, keydown_playerX s k⟩
  · rw [hk]; simp [openPopup, ha, hc]
  · rw [hk]; simp [openPopup, ha, hc]

/-- C19, worked instance: a tablet at 150 and a plow at 500; after thirteen
frames with the right arrow held the player is at 152, the tablet is active
at distance 2, and `E` opens the popup on it. -/
theorem popup_opens_only_in_range_witness :
    (run (start samplePage [tabletAt 150, plowAt 500])
      (Event.keydown "ArrowRight" :: List.replicate 13 Event.frame)).playerX = 152 ∧
    (∃ a, (run (start samplePage [tabletAt 150, plowAt 500])
        (Event.keydown "ArrowRight" :: List.replicate 13 Event.frame)).artifacts[0]? = some a ∧
      distance (run (start samplePage [tabletAt 150, plowAt 500])
        (Event.keydown "ArrowRight" :: List.replicate 13 Event.frame)).playerX a < 60) :=
  ⟨by decide,
   (popup_opens_only_in_range
      (run (start samplePage [tabletAt 150, plowAt 500])
        (Event.keydown "ArrowRight" :: List.replicate 13 Event.frame))
      ⟨samplePage, [tabletAt 150, plowAt 500],
        Event.keydown "ArrowRight" :: List.replicate 13 Event.frame, rfl⟩).1 0 (by decide)⟩

/-- C20: with the camera offset `handleMovement` computes, the player's offset
on screen `playerX - cameraX` is between 0 and `GAME_WIDTH - PLAYER_WIDTH`
(768): the player is never scrolled out of the view, in part or in whole. The
same holds for `clamp (p - 400) 0 1600` at every position `p` of the world. -/
theorem player_inside_viewport (s : Game) :
    0 ≤ (handleMovement s).playerX - (handleMovement s).cameraX ∧
    (handleMovement s).playerX - (handleMovement s).cameraX ≤ GAME_WIDTH - PLAYER_WIDTH ∧
    (handleMovement s).playerX - (handleMovement s).cameraX ≤ 768 ∧
    (∀ p : Int, 0 ≤ p → p ≤ 2368 →
      0 ≤ p - clamp (p - 400) 0 1600 ∧ p - clamp (p - 400) 0 1600 ≤ 768) := by
  have hw := handleMovement_inWorld s
  rw [handleMovement_cameraX s]
  revert hw
  generalize (handleMovement s).playerX = p
  intro hw
  simp only [InWorld, WORLD_WIDTH, PLAYER_WIDTH] at hw
  simp only [clamp, GAME_WIDTH, WORLD_WIDTH, PLAYER_WIDTH]
  refine ⟨?_, ?_, ?_, ?_⟩
  · split_ifs <;> omega
  · split_ifs <;> omega
  · split_ifs <;> omega
  · intro q h0 h1
    omega

/-- C20, worked instance: at the right bound 2368 the camera is at 1600 and
the player's offset on screen is 768, the largest the view allows. -/
theorem player_inside_viewport_witness :
    clamp (2368 - 400) 0 1600 = 1600 ∧
    0 ≤ (2368 : Int) - clamp (2368 - 400) 0 1600 ∧
    (2368 : Int) - clamp (2368 - 400) 0 1600 ≤ 768 :=
  ⟨by decide,
   (player_inside_viewport (initGame samplePage [])).2.2.2 2368 (by decide) (by decide)⟩

/-- C17 as stated fails: `constructor` is not a key of the registry, yet a
marker with that type id builds an artifact: `artifactInfo["constructor"]` is
the inherited function `Object`, whose `name` is `"Object"` and which has no
`description`; no exception is raised. -/
theorem inherited_type_id_builds_artifact :
    "constructor" ∉ registryKeys ∧
    loadArtifacts [{ type := some "constructor", x := some 300 }]
      = Except.ok [{ x := 300, type := "constructor", name := some "Object",
                     description := none, collected := false }] ∧
    (boot samplePage [{ type := some "constructor", x := some 300 }]).toOption.map
      (fun s => s.totalArtifacts) = some 1 := by
  refine ⟨by decide, rfl, by decide⟩

/-- C17, amended: building the array fails, with a `TypeError` and no array,
exactly when for some marker the read `artifactInfo[type]` is `undefined`: the
marker has no type id, or its type id is neither a key of the registry nor a
property name inherited from `Object.prototype` (`constructor`, the ten
inherited functions, `__proto__`). A marker whose type id is one of those
inherited names is loaded, without a description. When every type id is a key
of the registry the array is built, with one artifact per marker in marker
order, carrying the registry's name and description and not collected. -/
theorem load_artifacts_outcome (ms : List Marker) :
    ((∃ m ∈ ms, m.unregistered) →
      loadArtifacts ms = Except.error typeError ∧
      ∀ page : Page, boot page ms = Except.error typeError) ∧
    ((∃ e, loadArtifacts ms = Except.error e) → ∃ m ∈ ms, m.unregistered) ∧
    ((∀ m ∈ ms, ∃ t, m.type = some t ∧ t ∈ registryKeys) →
      ∃ arts, loadArtifacts ms = Except.ok arts ∧ List.Forall₂ Marker.builds ms arts ∧
        arts.length = ms.length ∧ ∀ a ∈ arts, a.collected = false) ∧
    (∀ t : String, artifactInfo t = none ↔
      t ∉ registryKeys ∧ t ≠ "constructor" ∧ t ∉ inheritedFunctions ∧ t ≠ "__proto__") ∧
    ((∃ e, loadArtifacts ms = Except.error e) ↔
      ∃ m ∈ ms, m.type = none ∨ ∃ t, m.type = some t ∧ t ∉ registryKeys ∧
        t ≠ "constructor" ∧ t ∉ inheritedFunctions ∧ t ≠ "__proto__") ∧
    (∀ (t : String) (x : Option Int),
      t = "constructor" ∨ t ∈ inheritedFunctions ∨ t = "__proto__" →
      loadArtifact { type := some t, x := x } = Except.ok
        { x := (match x with
            | some v => v
            | none => 0)
          type := t
          name := if t = "constructor" then some "Object"
            else if t = "__proto__" then none else some t
          description := none
          collected := false }) := by
  have hfail : (∃ e, loadArtifacts ms = Except.error e) → ∃ m ∈ ms, m.unregistered := by
    rintro ⟨e, he⟩
    have := loadArtifacts_error_eq ms e he
    subst this
    exact (loadArtifacts_error_iff ms).1 he
  refine ⟨?_, hfail, ?_, artifactInfo_none_iff, ?_, loadArtifact_inherited⟩
  · intro h
    have hl := (loadArtifacts_error_iff ms).2 h
    refine ⟨hl, fun page => ?_⟩
    simp only [boot, hl]
  · intro h
    obtain ⟨arts, h1, h2⟩ := loadArtifacts_registered ms h
    exact ⟨arts, h1, h2, h2.length_eq.symm, (loadArtifacts_x ms arts h1).2⟩
  · constructor
    · intro h
      obtain ⟨m, hm, hu⟩ := hfail h
      exact ⟨m, hm, (unregistered_iff m).1 hu⟩
    · rintro ⟨m, hm, hu⟩
      exact ⟨typeError, (loadArtifacts_error_iff ms).2 ⟨m, hm, (unregistered_iff m).2 hu⟩⟩

/-- C17, worked instance: a tablet marker followed by a marker of the unknown
type `lens`: no array is built. Two markers of known types: two artifacts. -/
theorem load_artifacts_outcome_witness :
    loadArtifacts [{ type := some "cuneiform", x := some 100 },
                   { type := some "lens", x := some 300 }] = Except.error typeError ∧
    (∃ arts, loadArtifacts [{ type := some "cuneiform", x := some 100 },
                            { type := some "wheel", x := some 300 }] = Except.ok arts ∧
      arts.length = 2) :=
  ⟨((load_artifacts_outcome [{ type := some "cuneiform", x := some 100 },
        { type := some "lens", x := some 300 }]).1
      ⟨{ type := some "lens", x := some 300 }, by decide, Or.inr ⟨"lens", rfl, rfl⟩⟩).1,
   (fun ⟨arts, h1, _, h3, _⟩ => ⟨arts, h1, h3⟩)
    ((load_artifacts_outcome [{ type := some "cuneiform", x := some 100 },
        { type := some "wheel", x := some 300 }]).2.2.1
      (by
        intro m hm
        simp only [List.mem_cons, List.mem_singleton, List.not_mem_nil, or_false] at hm
        rcases hm with h | h <;> subst h
        · exact ⟨"cuneiform", rfl, by decide⟩
        · exact ⟨"wheel", rfl, by decide⟩))⟩

/-- C18 as stated fails: a wheel marker whose coordinate is -50 is loaded, and
the artifact built for it has `x = -50`. -/
theorem negative_coordinate_loaded :
    (loadArtifacts [{ type := some "wheel", x := some (-50) }]).toOption.map
      (List.map Artifact.x) = some [-50] ∧
    (∃ a, loadArtifact { type := some "wheel", x := some (-50) } = Except.ok a ∧
      a.x = -50 ∧ a.x < 0) :=
  ⟨by decide, ⟨_, rfl, rfl, by decide⟩⟩

/-- C18, amended: loading neither clamps nor rejects a coordinate. A marker
with a type id of the registry is loaded whatever its coordinate, and the
artifact's `x` is that coordinate, negative or beyond the world as it may be;
only a coordinate that does not parse (`NaN`) becomes 0. -/
theorem coordinates_loaded_unchanged (ms : List Marker) (arts : List Artifact)
    (h : loadArtifacts ms = Except.ok arts) :
    arts.map Artifact.x = ms.map (fun m => match m.x with
      | some v => v
      | none => 0) ∧
    (∀ t ∈ registryKeys, ∀ v : Int,
      ∃ a, loadArtifact { type := some t, x := some v } = Except.ok a ∧ a.x = v) ∧
    (∀ t ∈ registryKeys,
      ∃ a, loadArtifact { type := some t, x := none } = Except.ok a ∧ a.x = 0) := by
  refine ⟨(loadArtifacts_x ms arts h).1, ?_, ?_⟩
  · intro t ht v
    obtain ⟨a, ha, _⟩ := loadArtifact_registered { type := some t, x := some v } t rfl ht
    exact ⟨a, ha, (loadArtifact_x _ a ha).1⟩
  · intro t ht
    obtain ⟨a, ha, _⟩ := loadArtifact_registered { type := some t, x := none } t rfl ht
    exact ⟨a, ha, (loadArtifact_x _ a ha).1⟩

/-- C18, worked instance: markers at -50, at 5000 and with an unparsable
coordinate give artifacts at -50, 5000 and 0. -/
theorem coordinates_loaded_unchanged_witness :
    ∃ arts, loadArtifacts [{ type := some "wheel", x := some (-50) },
        { type := some "math", x := some 5000 }, { type := some "plow", x := none }]
      = Except.ok arts ∧ arts.map Artifact.x = [-50, 5000, 0] :=
  ⟨_, rfl, (coordinates_loaded_unchanged
    [{ type := some "wheel", x := some (-50) }, { type := some "math", x := some 5000 },
     { type := some "plow", x := none }] _ rfl).1⟩

end TimeTrek
